/-
Verification of the serverless research handler of this repository
(`src/research.py` and its near-duplicate `src/netlify/functions/research.py`).

Shallow embedding notes:

* JSON values are modelled by `Json`.  Python strings that occur inside the
  handler are modelled by `JStr`: a string is either `JStr.enc j` — a string
  that is a JSON encoding of the value `j` (the image of `json.dumps`) — or
  `JStr.raw s` — a string `s` that is not a JSON document.  `json.loads`
  succeeds exactly on the first kind.  This quotient erases the concrete
  characters of an encoding; no claim depends on them.
* Python object fields are association lists with distinct keys
  (`json.loads` produces dicts, which have unique keys); lookup returns the
  first binding.
* Python truthiness (`if not x`, `if x and y`) is modelled by `truthyJ`
  and friends, following Python semantics: `None`, `False`, `0`, `""`,
  `[]`, `{}` are falsy.
* Exceptions are modelled by `PyExc`.  `requests.post` behaviour is an
  explicit parameter `UpstreamResult` of the handler (timeout exception,
  other transport exception, or an HTTP response).  `response.json()`
  failure raises `requests.exceptions.JSONDecodeError` (requests >= 2.27),
  which subclasses both `requests.exceptions.RequestException` and
  `json.JSONDecodeError`; the modelled except-chain therefore catches it at
  the `RequestException` clause, as CPython does.
* The exact text that CPython puts inside exception objects (decode error
  positions, AttributeError wording) varies with the offending value; the
  model uses fixed stand-in strings for those.  No claim depends on their exact
  content, only on the fixed wrapper prefixes added by the handler itself.
* "No upstream call is attempted" is formalised as: the handler's result
  does not depend on the `UpstreamResult` parameter.
-/
import Mathlib

namespace ResearchPy

mutual
/-- JSON values, as produced by `json.loads`.  String leaves are `JStr`,
so that a string nested inside a document can itself be a JSON encoding
(the provider returns the research data as JSON-encoded text inside the
outer JSON response). -/
inductive Json : Type where
  | null : Json
  | bool : Bool → Json
  | num  : Int → Json
  | str  : JStr → Json
  | arr  : List Json → Json
  | obj  : List (String × Json) → Json

/-- A Python string, tagged by whether it is a JSON document:
`enc j` is a JSON encoding of `j` (what `json.dumps j` yields),
`raw s` is a string that is not valid JSON. -/
inductive JStr : Type where
  | enc : Json → JStr
  | raw : String → JStr
end  -- mutual

/-- Python truthiness of a decoded JSON value (`None`, `False`, `0`, the
empty string, the empty list and the empty dict are falsy).  A `JStr.enc`
string is never empty (no JSON document is the empty string), hence truthy. -/
def truthyJ : Json → Bool
  | .null => false
  | .bool b => b
  | .num n => n != 0
  | .str (.enc _) => true
  | .str (.raw s) => !s.isEmpty
  | .arr xs => !xs.isEmpty
  | .obj fs => !fs.isEmpty

/-- Python truthiness of a string value. -/
def truthyS : JStr → Bool
  | .enc _ => true
  | .raw s => !s.isEmpty

/-- Python truthiness of `dict.get` results (`None` for a missing key). -/
def truthyOpt : Option Json → Bool
  | none => false
  | some j => truthyJ j

/-- `json.loads` on a Python string: succeeds exactly on JSON encodings. -/
def loads : JStr → Option Json
  | .enc j => some j
  | .raw _ => none

/-- `json.dumps`: serialises a value to a string that encodes it. -/
def dumps : Json → JStr := .enc

/-- First-match lookup in a JSON object's field list (Python dicts from
`json.loads` have unique keys, so first-match equals dict lookup). -/
def jlookup : List (String × Json) → String → Option Json
  | [], _ => none
  | (k, v) :: rest, key => if k == key then some v else jlookup rest key

/-- Python exceptions that the handler body can raise.
`requestsJSONDecodeError` models `requests.exceptions.JSONDecodeError` raised
by `response.json()` (requests >= 2.27): it is simultaneously a
`requests.exceptions.RequestException` (via `InvalidJSONError`) and a
`json.JSONDecodeError`, so the except-chain catches it at the
`RequestException` clause.  `jsonDecodeError` models a plain
`json.JSONDecodeError` raised by `json.loads`. -/
inductive PyExc : Type where
  | timeout : PyExc
  | requestException : String → PyExc
  | requestsJSONDecodeError : String → PyExc
  | jsonDecodeError : String → PyExc
  | indexError : String → PyExc
  | otherError : String → PyExc

/-- Stand-in for the position-dependent message of a `JSONDecodeError`. -/
def decodeErrMsg : String := "Expecting value: line 1 column 1 (char 0)"

/-- Stand-in for the type-dependent message of the `AttributeError` raised
by calling `.get` on a non-dict value. -/
def attrGetErrMsg : String := "object has no usable get method"

/-- Stand-in for the message of the `TypeError` raised by subscripting a
non-subscriptable value. -/
def subscriptErrMsg : String := "object is not subscriptable"

/-- Stand-in for the message of the `KeyError` raised by `d[0]` on a dict
whose keys are strings. -/
def keyZeroErrMsg : String := "0"

/-- Stand-in for the message of the `TypeError` raised by `json.loads` on a
non-string argument. -/
def loadsTypeErrMsg : String := "the JSON object must be str, bytes or bytearray"

/-- Stand-in for the message of the `TypeError` raised by iterating a
non-iterable value. -/
def iterTypeErrMsg : String := "object is not iterable"

/-- Stand-in for `str(e)` of a `requests.exceptions.Timeout`. -/
def timeoutStrMsg : String := "request timed out"

/-- Stand-in for `str(e)` of the `HTTPError` raised by
`response.raise_for_status()` on a status >= 400. -/
def httpErrMsg (status : Nat) : String := "HTTP error " ++ toString status

/-- `str(e)` of a modelled exception. -/
def excStr : PyExc → String
  | .timeout => timeoutStrMsg
  | .requestException m => m
  | .requestsJSONDecodeError m => m
  | .jsonDecodeError m => m
  | .indexError m => m
  | .otherError m => m

/-- Python `value.get(key)` (one-argument `dict.get`): `None` when the key
is missing, `AttributeError` when the value is not a dict. -/
def pyGetOpt : Json → String → Except PyExc (Option Json)
  | .obj fs, k => .ok (jlookup fs k)
  | _, _ => .error (.otherError attrGetErrMsg)

/-- Python `value.get(key, default)` (two-argument `dict.get`): the stored
value when the key is present (even when it is `None`), the default when the
key is missing, `AttributeError` when the value is not a dict. -/
def pyGetD (j : Json) (k : String) (d : Json) : Except PyExc Json :=
  match pyGetOpt j k with
  | .error e => .error e
  | .ok o => .ok (o.getD d)

/-- First character of the canonical JSON encoding of a value (used only to
model Python string subscripting `s[0]` on an encoding). -/
def encHead : Json → Char
  | .null => 'n'
  | .bool true => 't'
  | .bool false => 'f'
  | .num n => if n < 0 then '-' else (Nat.toDigits 10 n.toNat).headD '0'
  | .str _ => '"'
  | .arr _ => '\x5b'
  | .obj _ => '\x7b'

/-- First character of a Python string, `none` when the string is empty
(an encoding is never empty). -/
def strChar0 : JStr → Option Char
  | .enc j => some (encHead j)
  | .raw s => s.data.head?

/-- Python `value[0]`: first element of a list (`IndexError` when empty),
first character of a string (as a 1-character string), `KeyError` on a dict
(JSON object keys are strings, never the integer 0), `TypeError` otherwise. -/
def pyIndex0 : Json → Except PyExc Json
  | .arr [] => .error (.indexError "list index out of range")
  | .arr (x :: _) => .ok x
  | .str s =>
      match strChar0 s with
      | none => .error (.indexError "string index out of range")
      | some c => .ok (.str (.raw (String.singleton c)))
  | .obj _ => .error (.otherError keyZeroErrMsg)
  | _ => .error (.otherError subscriptErrMsg)

/-- Python `json.loads` applied to an arbitrary value: decodes a string,
`TypeError` on a non-string. -/
def pyLoadsValue : Json → Except PyExc Json
  | .str s =>
      match loads s with
      | some j => .ok j
      | none => .error (.jsonDecodeError decodeErrMsg)
  | _ => .error (.otherError loadsTypeErrMsg)

/-- The invocation event.  The inbound contract's only relevant field is
`body`: a string when the request carried one, absent (Python `None`)
otherwise. -/
structure Event : Type where
  body : Option JStr

/-- Behaviour of the single outbound `requests.post` call: a raised
`requests.exceptions.Timeout`, some other raised
`requests.exceptions.RequestException` (connection error, etc.), or an HTTP
response with a status code and a body string. -/
inductive UpstreamResult : Type where
  | timeout : UpstreamResult
  | connError : String → UpstreamResult
  | response : Nat → JStr → UpstreamResult

/-- The handler's return value: the dict `{statusCode, headers?, body}`;
an absent `headers` key is modelled by the empty list. -/
structure HttpResult : Type where
  statusCode : Nat
  headers : List (String × String)
  body : JStr

/-- `{"statusCode": code, "body": json.dumps({"error": msg})}`. -/
def mkErr (code : Nat) (msg : String) : HttpResult :=
  ⟨code, [], .enc (.obj [("error", .str (.raw msg))])⟩

/-- `{"statusCode": code, "body": json.dumps({"error": msg, "details": d})}`. -/
def mkErrDetails (code : Nat) (msg d : String) : HttpResult :=
  ⟨code, [], .enc (.obj [("error", .str (.raw msg)), ("details", .str (.raw d))])⟩

/-- The fixed placeholder title (`'No Title Available'`, line 130). -/
def noTitle : Json := .str (.raw "No Title Available")

/-- The loop body of the citation extraction (lines 125-131): for each
attribution, `web = attribution.get('web')`; keep the entry when `web` and
`web.get('uri')` are truthy, with `web['uri']` and
`web.get('title', 'No Title Available')`; sources keep attribution order. -/
def foldAttr : List Json → Except PyExc (List Json)
  | [] => .ok []
  | a :: rest =>
    match pyGetOpt a "web" with
    | .error e => .error e
    | .ok webOpt =>
      let web := webOpt.getD .null
      if truthyJ web then
        match pyGetOpt web "uri" with
        | .error e => .error e
        | .ok uriOpt =>
          if truthyOpt uriOpt then
            match uriOpt with
            | some uri =>
              let title := match web with
                | .obj ws => (jlookup ws "title").getD noTitle
                | _ => noTitle
              match foldAttr rest with
              | .error e => .error e
              | .ok tail => .ok (Json.obj [("uri", uri), ("title", title)] :: tail)
            | none => .error (.otherError "unreachable: truthy None")
          else foldAttr rest
      else foldAttr rest

/-- `for attribution in attrs:` — iterate a list; iterating a (nonempty)
string or dict yields strings whose `.get` raises `AttributeError` at the
first iteration; other values raise `TypeError`. -/
def iterAttrs : Json → Except PyExc (List Json)
  | .arr xs => foldAttr xs
  | .str _ => .error (.otherError attrGetErrMsg)
  | .obj _ => .error (.otherError attrGetErrMsg)
  | _ => .error (.otherError iterTypeErrMsg)

/-- Lines 123-131: `sources = []`, then
`if grounding_metadata and grounding_metadata.get('groundingAttributions'):`
iterate `grounding_metadata['groundingAttributions']`. -/
def sourcesCalc (gm : Json) : Except PyExc (List Json) :=
  if truthyJ gm then
    match pyGetOpt gm "groundingAttributions" with
    | .error e => .error e
    | .ok attrsOpt =>
      if truthyOpt attrsOpt then
        match attrsOpt with
        | some attrs => iterAttrs attrs
        | none => .error (.otherError "unreachable: truthy None")
      else .ok []
  else .ok []

/-- The body of the `try:` block (lines 76-141), shared verbatim by the two
handler copies.  A `.error` value is an exception propagating to the
`except` clauses; `.ok` is a `return` inside the `try`. -/
def handlerTry (event : Event) (upstream : UpstreamResult) :
    Except PyExc HttpResult :=
  -- 2. Input Validation: `if event.get('body'): ... else: return 400`
  match event.body with
  | none => .ok (mkErr 400 "Missing prompt in request data.")
  | some b =>
    if truthyS b then
      -- `data = json.loads(event['body'])`
      match loads b with
      | none => .error (.jsonDecodeError decodeErrMsg)
      | some data =>
        -- `user_prompt = data.get('prompt')` — note: never validated further;
        -- the payload built from it (lines 88-96) is pure data handed to the
        -- upstream call, whose behaviour is the `upstream` parameter.
        match pyGetOpt data "prompt" with
        | .error e => .error e
        | .ok _userPrompt =>
          -- 4. `requests.post(..., timeout=30)`
          match upstream with
          | .timeout => .error .timeout
          | .connError m => .error (.requestException m)
          | .response status rbody =>
            -- `response.raise_for_status()`
            if 400 ≤ status then .error (.requestException (httpErrMsg status))
            else
              -- `result = response.json()`
              match loads rbody with
              | none => .error (.requestsJSONDecodeError decodeErrMsg)
              | some result =>
                -- `candidate = result.get('candidates', [{}])[0]`
                match pyGetD result "candidates" (.arr [.obj []]) with
                | .error e => .error e
                | .ok cands =>
                  match pyIndex0 cands with
                  | .error e => .error e
                  | .ok candidate =>
                    -- `if not candidate: return 500 empty candidate list`
                    if truthyJ candidate then
                      -- `json_text = candidate.get('content', {}).get('parts', [{}])[0].get('text')`
                      match pyGetD candidate "content" (.obj []) with
                      | .error e => .error e
                      | .ok content =>
                        match pyGetD content "parts" (.arr [.obj []]) with
                        | .error e => .error e
                        | .ok parts =>
                          match pyIndex0 parts with
                          | .error e => .error e
                          | .ok part0 =>
                            match pyGetOpt part0 "text" with
                            | .error e => .error e
                            | .ok jsonTextOpt =>
                              -- `grounding_metadata = candidate.get('groundingMetadata', {})`
                              match pyGetD candidate "groundingMetadata" (.obj []) with
                              | .error e => .error e
                              | .ok gm =>
                                -- `if not json_text: return 500`
                                if truthyOpt jsonTextOpt then
                                  -- `research_data = json.loads(json_text)`
                                  match pyLoadsValue (jsonTextOpt.getD .null) with
                                  | .error e => .error e
                                  | .ok researchData =>
                                    match sourcesCalc gm with
                                    | .error e => .error e
                                    | .ok sources =>
                                      -- 6. success return (lines 134-141)
                                      .ok ⟨200, [("Content-Type", "application/json")],
                                        .enc (.obj [("research", researchData),
                                                    ("sources", .arr sources)])⟩
                                else
                                  .ok (mkErr 500
                                    "Gemini API failed to return structured JSON content.")
                    else
                      .ok (mkErr 500 "Gemini API returned an empty candidate list.")
        else .ok (mkErr 400 "Missing prompt in request data.")

/-- The `except` chain of `src/research.py` (lines 143-150):
`Timeout` → 504; `RequestException` (which `requests.exceptions.JSONDecodeError`
subclasses) → 500 transport message; plain `json.JSONDecodeError` → 500 parse
message; anything else → 500 generic message. -/
def applyExcepts : Except PyExc HttpResult → HttpResult
  | .ok r => r
  | .error .timeout => mkErr 504 "The AI research request timed out."
  | .error (.requestException m) =>
      mkErrDetails 500 ("Failed to communicate with the Gemini API: " ++ m) m
  | .error (.requestsJSONDecodeError m) =>
      mkErrDetails 500 ("Failed to communicate with the Gemini API: " ++ m) m
  | .error (.jsonDecodeError _) =>
      mkErr 500 "Failed to parse JSON response from AI model. Check prompt/schema alignment."
  | .error (.indexError m) =>
      mkErrDetails 500 ("An unexpected server error occurred: " ++ m) m
  | .error (.otherError m) =>
      mkErrDetails 500 ("An unexpected server error occurred: " ++ m) m

/-- The `except` chain of `src/netlify/functions/research.py`
(lines 147-149): a single `except Exception` clause, so every exception —
timeouts included — becomes a generic 500. -/
def applyExceptsNetlify : Except PyExc HttpResult → HttpResult
  | .ok r => r
  | .error e =>
      mkErrDetails 500 ("An unexpected server error occurred: " ++ excStr e) (excStr e)

/-- Truthiness of `GEMINI_API_KEY` (`os.environ.get` yields `None` when
unset; `if not GEMINI_API_KEY` also rejects the empty string). -/
def truthyKey : Option String → Bool
  | none => false
  | some s => !s.isEmpty

/-- `handler` of `src/research.py` (lines 66-150).  `GEMINI_API_KEY` is the
process-wide configuration value; `upstream` is the behaviour of the single
outbound call. -/
def handler (GEMINI_API_KEY : Option String) (event : Event)
    (upstream : UpstreamResult) : HttpResult :=
  if truthyKey GEMINI_API_KEY then applyExcepts (handlerTry event upstream)
  else
    mkErr 500 "Server API Key is missing. Set GEMINI_API_KEY environment variable."

/-- `handler` of `src/netlify/functions/research.py` (lines 65-149): same
try-body, but a single catch-all except clause and a slightly different
key-missing message. -/
def handlerNetlify (GEMINI_API_KEY : Option String) (event : Event)
    (upstream : UpstreamResult) : HttpResult :=
  if truthyKey GEMINI_API_KEY then applyExceptsNetlify (handlerTry event upstream)
  else
    mkErr 500
      "Server API Key is missing. Set GEMINI_API_KEY environment variable in Netlify."

/-- The `error` field of a returned body, when it is a plain string
(present on every error path of the handler). -/
def errStrOf (r : HttpResult) : Option String :=
  match r.body with
  | .enc (.obj fs) =>
      match jlookup fs "error" with
      | some (.str (.raw s)) => some s
      | _ => none
  | _ => none

/-- The `sources` field of a returned body. -/
def sourcesOf (r : HttpResult) : Option Json :=
  match r.body with
  | .enc (.obj fs) => jlookup fs "sources"
  | _ => none

/-- Number of entries in the returned `sources` list. -/
def sourcesCount (r : HttpResult) : Nat :=
  match sourcesOf r with
  | some (.arr l) => l.length
  | _ => 0

/-- An attribution shape on which the extraction loop cannot raise: the
attribution is a dict, and its `web` value — when present and truthy — is a
dict.  (On other shapes the loop raises `AttributeError`; the claims about
extraction quantify over these benign shapes.) -/
def attrBenign : Json → Bool
  | .obj fs =>
      match jlookup fs "web" with
      | none => true
      | some w =>
          !truthyJ w ||
          (match w with
           | .obj _ => true
           | _ => false)
  | _ => false

/-- The citation-extraction contract, written from the (amended) spec
sentence: keep, in attribution order, exactly the attributions whose `web`
value is truthy and carries a truthy `uri`; each kept entry is
`(uri, title)` with the title defaulting to the fixed placeholder when
absent. -/
def specSources (attrs : List Json) : List Json :=
  attrs.filterMap fun a =>
    match a with
    | .obj fs =>
        match jlookup fs "web" with
        | some (.obj ws) =>
            if truthyJ (.obj ws) then
              match jlookup ws "uri" with
              | some uri =>
                  if truthyJ uri then
                    some (.obj [("uri", uri), ("title", (jlookup ws "title").getD noTitle)])
                  else none
              | none => none
            else none
        | _ => none
    | _ => none

/-! ## Concrete fixtures (used by witness and counterexample theorems) -/

/-- A well-formed event whose body is `'{"prompt": "hi"}'`. -/
def evHi : Event := ⟨some (.enc (.obj [("prompt", .str (.raw "hi"))]))⟩

/-- The body string of `evHi`. -/
def bodyHi : JStr := .enc (.obj [("prompt", .str (.raw "hi"))])

/-- The decoded field list of `bodyHi`. -/
def dfsHi : List (String × Json) := [("prompt", .str (.raw "hi"))]

/-- The spec's example research payload
`{"designPrinciples":[],"uiFrameworks":[],"aiApiConcepts":[]}`. -/
def rdEmpty : Json :=
  .obj [("designPrinciples", .arr []), ("uiFrameworks", .arr []),
        ("aiApiConcepts", .arr [])]

/-- Field list of a part `{"text": "<encoding of rdEmpty>"}`. -/
def pfsEx : List (String × Json) := [("text", .str (.enc rdEmpty))]

/-- Field list of a content value `{"parts": [<part>]}`. -/
def contfsEx : List (String × Json) := [("parts", .arr [Json.obj pfsEx])]

/-- Field list of a well-formed candidate without grounding metadata. -/
def cfsEx : List (String × Json) := [("content", .obj contfsEx)]

/-- Field list of an upstream body `{"candidates": [<candidate>]}`. -/
def ufsEx : List (String × Json) := [("candidates", .arr [Json.obj cfsEx])]

/-- An attribution whose `web` carries a nonempty `uri` and a title. -/
def attrGood : Json :=
  .obj [("web", .obj [("uri", .str (.raw "https://a.example")), ("title", .str (.raw "T"))])]

/-- An attribution whose `web.uri` is present but is the empty string. -/
def attrEmptyUri : Json := .obj [("web", .obj [("uri", .str (.raw ""))])]

/-- Candidate field list with a well-formed content and a grounding
metadata holding `[attrGood, attrEmptyUri]`. -/
def cfsGm : List (String × Json) :=
  [("content", .obj contfsEx),
   ("groundingMetadata", .obj [("groundingAttributions", .arr [attrGood, attrEmptyUri])])]

/-- Upstream body field list for the grounding counterexample. -/
def ufsGm : List (String × Json) := [("candidates", .arr [Json.obj cfsGm])]

/-! ## Helper lemmas -/

/-- A successful lookup means the field list is nonempty (so the object is
Python-truthy). -/
theorem jlookup_isEmpty_false (fs : List (String × Json)) (k : String) (v : Json)
    (h : jlookup fs k = some v) : fs.isEmpty = false := by
  cases fs with
  | nil => simp [jlookup] at h
  | cons a rest => simp

/-- Truthiness of a string-valued JSON leaf is string truthiness. -/
theorem truthyJ_str (t : JStr) : truthyJ (.str t) = truthyS t := by
  cases t <;> rfl

/-- A string that decodes is an encoding of what it decodes to. -/
theorem loads_eq_some {b : JStr} {j : Json} (h : loads b = some j) : b = .enc j := by
  cases b with
  | enc x => simp [loads] at h; rw [h]
  | raw s => simp [loads] at h

/-- On benign attribution lists the extraction loop of lines 125-131 raises
nothing and computes exactly the spec-side order-preserving filter. -/
theorem foldAttr_eq_spec (attrs : List Json) (h : attrs.all attrBenign = true) :
    foldAttr attrs = .ok (specSources attrs) := by
  induction attrs with
  | nil => rfl
  | cons a rest ih =>
    rw [List.all_cons, Bool.and_eq_true] at h
    obtain ⟨ha, hrest⟩ := h
    have ihr := ih hrest
    cases a with
    | obj fs =>
      cases hweb : jlookup fs "web" with
      | none =>
        simp [foldAttr, specSources, pyGetOpt, hweb, truthyJ, List.filterMap_cons, ihr]
      | some w =>
        cases htw : truthyJ w with
        | false =>
          cases w <;>
            simp_all [foldAttr, specSources, pyGetOpt, List.filterMap_cons]
        | true =>
          have hobj : ∃ ws, w = Json.obj ws := by
            simp [attrBenign, hweb, htw] at ha
            cases w with
            | obj ws => exact ⟨ws, rfl⟩
            | null => simp at ha
            | bool b => simp at ha
            | num n => simp at ha
            | str s => simp at ha
            | arr xs => simp at ha
          obtain ⟨ws, rfl⟩ := hobj
          cases huri : jlookup ws "uri" with
          | none =>
            simp [foldAttr, specSources, pyGetOpt, hweb, htw, huri, truthyOpt,
              List.filterMap_cons, ihr]
          | some uri =>
            cases htu : truthyJ uri with
            | false =>
              simp [foldAttr, specSources, pyGetOpt, hweb, htw, huri, truthyOpt, htu,
                List.filterMap_cons, ihr]
            | true =>
              simp [foldAttr, specSources, pyGetOpt, hweb, htw, huri, truthyOpt, htu,
                List.filterMap_cons, ihr]
    | null => simp [attrBenign] at ha
    | bool b => simp [attrBenign] at ha
    | num n => simp [attrBenign] at ha
    | str s => simp [attrBenign] at ha
    | arr xs => simp [attrBenign] at ha

/-- When the grounding metadata object has no `groundingAttributions` key,
the extraction yields no sources and raises nothing. -/
theorem sourcesCalc_no_attrs (gfs : List (String × Json))
    (hga : jlookup gfs "groundingAttributions" = none) :
    sourcesCalc (.obj gfs) = .ok [] := by
  cases hg : gfs.isEmpty <;>
    simp [sourcesCalc, truthyJ, hg, pyGetOpt, hga, truthyOpt]

/-- When the grounding metadata carries an attribution list of benign
shapes, the extraction computes the spec-side filter. -/
theorem sourcesCalc_spec (gfs : List (String × Json)) (attrs : List Json)
    (hga : jlookup gfs "groundingAttributions" = some (.arr attrs))
    (hben : attrs.all attrBenign = true) :
    sourcesCalc (.obj gfs) = .ok (specSources attrs) := by
  have hne : gfs.isEmpty = false := jlookup_isEmpty_false _ _ _ hga
  cases attrs with
  | nil => simp [sourcesCalc, truthyJ, hne, pyGetOpt, hga, truthyOpt, specSources]
  | cons a rest =>
    simp [sourcesCalc, truthyJ, hne, pyGetOpt, hga, truthyOpt, iterAttrs]
    exact foldAttr_eq_spec _ hben

/-- Every normal return of the try-body carries status 200, 400 or 500 and
a body that is a JSON encoding. -/
theorem handlerTry_ok_cases (e : Event) (u : UpstreamResult) (r : HttpResult)
    (h : handlerTry e u = .ok r) :
    (r.statusCode = 200 ∨ r.statusCode = 400 ∨ r.statusCode = 500) ∧
    ∃ j, r.body = .enc j := by
  unfold handlerTry at h
  repeat' split at h
  all_goals first
    | exact Except.noConfusion h
    | (injection h with h; subst h; exact ⟨by simp [mkErr], _, rfl⟩)

/-! ## Claims -/

/-- C3: whenever `GEMINI_API_KEY` is unset or empty, the handler returns
statusCode 500 with the fixed key-missing error message, for every possible
input event — and, since the result is a constant independent of the
`upstream` parameter, no outbound upstream call is made. -/
theorem C3_key_missing (k : Option String) (hk : truthyKey k = false)
    (e : Event) (u : UpstreamResult) :
    handler k e u =
      mkErr 500 "Server API Key is missing. Set GEMINI_API_KEY environment variable." := by
  simp [handler, hk]

/-- Witness for C3 at the concrete input `k = none`. -/
theorem C3_key_missing_witness :
    handler none ⟨some (.enc (.obj [("prompt", .str (.raw "hi"))]))⟩ .timeout =
      mkErr 500 "Server API Key is missing. Set GEMINI_API_KEY environment variable." :=
  C3_key_missing none rfl ⟨some (.enc (.obj [("prompt", .str (.raw "hi"))]))⟩ .timeout

/-- C1 is false as stated: for the event whose body is `'{"x": 1}'` — a
parsed JSON body lacking a `prompt` field — the handler does not return 400;
it attempts the upstream call (here: the call times out and the handler
returns 504, so the upstream behaviour influenced the result). -/
theorem C1_counterexample :
    (handler (some "key") ⟨some (.enc (.obj [("x", .num 1)]))⟩ .timeout).statusCode = 504 ∧
    ¬ (handler (some "key") ⟨some (.enc (.obj [("x", .num 1)]))⟩ .timeout).statusCode = 400 := by
  exact ⟨rfl, by decide⟩

/-- C1 amended: the handler returns statusCode 400 with an error body, and
attempts no upstream call (the result is independent of the upstream
behaviour), exactly when the event `body` is absent or falsy (the empty
string); a present, parseable body is never checked for a `prompt` field. -/
theorem C1_amended_thm (k : Option String) (e : Event) (u u' : UpstreamResult)
    (hk : truthyKey k = true)
    (hbody : e.body = none ∨ ∃ b, e.body = some b ∧ truthyS b = false) :
    handler k e u = mkErr 400 "Missing prompt in request data." ∧
    handler k e u = handler k e u' := by
  rcases hbody with h | ⟨b, hb, htb⟩
  · simp [handler, hk, handlerTry, h, applyExcepts]
  · simp [handler, hk, handlerTry, hb, htb, applyExcepts]

/-- Witness for the amended C1 at a concrete absent-body event. -/
theorem C1_amended_witness :
    handler (some "key") ⟨none⟩ .timeout = mkErr 400 "Missing prompt in request data." ∧
    handler (some "key") ⟨none⟩ .timeout = handler (some "key") ⟨none⟩ (.connError "boom") :=
  C1_amended_thm (some "key") ⟨none⟩ .timeout (.connError "boom") rfl (Or.inl rfl)

/-- C2 is false as stated: for the event whose body is the non-JSON string
`"not json"`, the handler returns 500 (the `json.JSONDecodeError` raised by
`json.loads(event['body'])` is caught by the decode-error clause of line
147), not 400. -/
theorem C2_counterexample :
    (handler (some "key") ⟨some (.raw "not json")⟩ .timeout).statusCode = 500 ∧
    ¬ (handler (some "key") ⟨some (.raw "not json")⟩ .timeout).statusCode = 400 := by
  exact ⟨rfl, by decide⟩

/-- C2 amended: for every event whose `body` is present (and truthy) but not
parsable as JSON, the handler returns statusCode 500 — with the
decode-failure message intended for the upstream response — and no upstream
call is attempted (the result is independent of the upstream behaviour). -/
theorem C2_amended_thm (k : Option String) (e : Event) (b : JStr)
    (u u' : UpstreamResult) (hk : truthyKey k = true)
    (hb : e.body = some b) (htb : truthyS b = true) (hl : loads b = none) :
    handler k e u =
      mkErr 500 "Failed to parse JSON response from AI model. Check prompt/schema alignment." ∧
    handler k e u = handler k e u' := by
  simp [handler, hk, handlerTry, hb, htb, hl, applyExcepts]

/-- Witness for the amended C2 at the concrete body `"not json"`. -/
theorem C2_amended_witness :
    handler (some "key") ⟨some (.raw "not json")⟩ .timeout =
      mkErr 500 "Failed to parse JSON response from AI model. Check prompt/schema alignment." ∧
    handler (some "key") ⟨some (.raw "not json")⟩ .timeout =
      handler (some "key") ⟨some (.raw "not json")⟩ (.connError "boom") :=
  C2_amended_thm (some "key") ⟨some (.raw "not json")⟩ (.raw "not json") .timeout
    (.connError "boom") rfl rfl rfl rfl

/-- C5 (code bug evaluation): with a valid prompt and the upstream replying
200 with body `'{"candidates": []}'`, `result.get('candidates', [{}])[0]`
raises `IndexError` before the dedicated `if not candidate` check can run,
so the handler returns the generic catch-all 500 — not the dedicated
"empty candidate list" message the code itself defines for this situation
on line 112. -/
theorem C5_code_eval :
    handler (some "key") ⟨some (.enc (.obj [("prompt", .str (.raw "hi"))]))⟩
        (.response 200 (.enc (.obj [("candidates", .arr [])]))) =
      mkErrDetails 500 ("An unexpected server error occurred: list index out of range")
        "list index out of range" ∧
    ¬ errStrOf (handler (some "key") ⟨some (.enc (.obj [("prompt", .str (.raw "hi"))]))⟩
        (.response 200 (.enc (.obj [("candidates", .arr [])])))) =
      some "Gemini API returned an empty candidate list." := by
  exact ⟨rfl, by decide⟩

/-- C6 is false as stated: in the duplicate copy
`src/netlify/functions/research.py`, whose only except clause is the
catch-all `except Exception`, a raised timeout yields statusCode 500, not
504. -/
theorem C6_counterexample :
    (handlerNetlify (some "key") ⟨some (.enc (.obj [("prompt", .str (.raw "hi"))]))⟩
        .timeout).statusCode = 500 ∧
    ¬ (handlerNetlify (some "key") ⟨some (.enc (.obj [("prompt", .str (.raw "hi"))]))⟩
        .timeout).statusCode = 504 := by
  exact ⟨rfl, by decide⟩

/-- C6 amended: when the outbound call raises a timeout (the 30-second
ceiling is exceeded), the handler of `src/research.py` returns statusCode
504; the duplicate copy `src/netlify/functions/research.py` lacks the
dedicated timeout clause and returns statusCode 500 for the same input. -/
theorem C6_amended_thm (k : Option String) (e : Event) (b : JStr)
    (dfs : List (String × Json)) (hk : truthyKey k = true)
    (hb : e.body = some b) (htb : truthyS b = true)
    (hl : loads b = some (.obj dfs)) :
    handler k e .timeout = mkErr 504 "The AI research request timed out." ∧
    (handlerNetlify k e .timeout).statusCode = 500 := by
  constructor
  · simp [handler, hk, handlerTry, hb, htb, hl, applyExcepts, pyGetOpt]
  · simp [handlerNetlify, hk, handlerTry, hb, htb, hl, applyExceptsNetlify, pyGetOpt,
      mkErrDetails]

/-- Witness for the amended C6 at a concrete valid event. -/
theorem C6_amended_witness :
    handler (some "key") ⟨some (.enc (.obj [("prompt", .str (.raw "hi"))]))⟩ .timeout =
      mkErr 504 "The AI research request timed out." ∧
    (handlerNetlify (some "key") ⟨some (.enc (.obj [("prompt", .str (.raw "hi"))]))⟩
        .timeout).statusCode = 500 :=
  C6_amended_thm (some "key") ⟨some (.enc (.obj [("prompt", .str (.raw "hi"))]))⟩
    (.enc (.obj [("prompt", .str (.raw "hi"))])) [("prompt", .str (.raw "hi"))]
    rfl rfl rfl rfl

/-- C7: a JSON-decoding failure of the inner structured-text payload
(`json.loads(json_text)` raises a plain `json.JSONDecodeError`, caught by
the clause of line 147) produces a distinct error message from a
JSON-decoding failure of the outer upstream body (`response.json()` raises
`requests.exceptions.JSONDecodeError`, a `RequestException` subclass caught
by the clause of line 145); both yield statusCode 500. -/
theorem C7_distinct_decode_errors (k : Option String) (e : Event) (b : JStr)
    (dfs : List (String × Json)) (s₁ t : String)
    (hk : truthyKey k = true) (hb : e.body = some b) (htb : truthyS b = true)
    (hl : loads b = some (.obj dfs)) (ht : t.isEmpty = false) :
    (handler k e (.response 200 (.raw s₁))).statusCode = 500 ∧
    (handler k e (.response 200 (.enc (.obj [("candidates", .arr [.obj [("content",
        .obj [("parts", .arr [.obj [("text", .str (.raw t))]])])]])])))).statusCode = 500 ∧
    errStrOf (handler k e (.response 200 (.raw s₁))) ≠
      errStrOf (handler k e (.response 200 (.enc (.obj [("candidates", .arr [.obj [("content",
        .obj [("parts", .arr [.obj [("text", .str (.raw t))]])])]])])))) := by
  obtain rfl := loads_eq_some hl
  have e₁ : handler k e (.response 200 (.raw s₁)) =
      mkErrDetails 500 ("Failed to communicate with the Gemini API: " ++ decodeErrMsg)
        decodeErrMsg := by
    simp [handler, hk, handlerTry, hb, pyGetOpt, loads, truthyS, applyExcepts]
  have e₂ : handler k e (.response 200 (.enc (.obj [("candidates", .arr [.obj [("content",
        .obj [("parts", .arr [.obj [("text", .str (.raw t))]])])]])]))) =
      mkErr 500 "Failed to parse JSON response from AI model. Check prompt/schema alignment." := by
    simp [handler, hk, handlerTry, hb, pyGetOpt, pyGetD, pyIndex0, loads, truthyS, jlookup,
      truthyJ, truthyOpt, ht, pyLoadsValue, applyExcepts]
  rw [e₁, e₂]
  exact ⟨rfl, rfl, by decide⟩

/-- Witness for C7 at concrete inputs (outer body `"oops"`, inner text
`"also not json"`). -/
theorem C7_distinct_decode_errors_witness :
    (handler (some "key") ⟨some (.enc (.obj [("prompt", .str (.raw "hi"))]))⟩
        (.response 200 (.raw "oops"))).statusCode = 500 ∧
    (handler (some "key") ⟨some (.enc (.obj [("prompt", .str (.raw "hi"))]))⟩
        (.response 200 (.enc (.obj [("candidates", .arr [.obj [("content",
        .obj [("parts", .arr [.obj [("text", .str (.raw "also not json"))]])])]])])))).statusCode
      = 500 ∧
    errStrOf (handler (some "key") ⟨some (.enc (.obj [("prompt", .str (.raw "hi"))]))⟩
        (.response 200 (.raw "oops"))) ≠
      errStrOf (handler (some "key") ⟨some (.enc (.obj [("prompt", .str (.raw "hi"))]))⟩
        (.response 200 (.enc (.obj [("candidates", .arr [.obj [("content",
        .obj [("parts", .arr [.obj [("text", .str (.raw "also not json"))]])])]])])))) :=
  C7_distinct_decode_errors (some "key") ⟨some (.enc (.obj [("prompt", .str (.raw "hi"))]))⟩
    (.enc (.obj [("prompt", .str (.raw "hi"))])) [("prompt", .str (.raw "hi"))]
    "oops" "also not json" rfl rfl rfl rfl rfl

/-- C9: for every well-formed upstream candidate (2xx status, first
candidate carrying `content.parts[0].text` as a nonempty string that parses
as JSON) with no `groundingMetadata` key, the handler returns statusCode
200, the JSON content-type header, `sources = []`, and `research` exactly
equal to the JSON-decoded structured text. -/
theorem C9_success (k : Option String) (e : Event) (b : JStr)
    (dfs ufs cfs contfs pfs : List (String × Json)) (cs ps : List Json)
    (t : JStr) (rj : Json) (s : Nat)
    (hk : truthyKey k = true) (hb : e.body = some b) (htb : truthyS b = true)
    (hl : loads b = some (.obj dfs))
    (hs : 200 ≤ s) (hs' : s < 300)
    (hcand : jlookup ufs "candidates" = some (.arr (Json.obj cfs :: cs)))
    (hcont : jlookup cfs "content" = some (.obj contfs))
    (hparts : jlookup contfs "parts" = some (.arr (Json.obj pfs :: ps)))
    (htext : jlookup pfs "text" = some (.str t))
    (htt : truthyS t = true) (hrt : loads t = some rj)
    (hgm : jlookup cfs "groundingMetadata" = none) :
    handler k e (.response s (.enc (.obj ufs))) =
      ⟨200, [("Content-Type", "application/json")],
        .enc (.obj [("research", rj), ("sources", .arr [])])⟩ := by
  obtain rfl := loads_eq_some hl
  obtain rfl := loads_eq_some hrt
  have h400 : ¬ (400 ≤ s) := by omega
  have hcne : cfs.isEmpty = false := jlookup_isEmpty_false cfs "content" _ hcont
  simp [handler, hk, handlerTry, hb, pyGetOpt, pyGetD, pyIndex0, loads, truthyS, h400,
    hcand, hcont, hparts, htext, hgm, truthyJ, hcne, truthyOpt,
    pyLoadsValue, sourcesCalc, applyExcepts]

/-- Witness for C9 with the spec's example structured text
`{"designPrinciples":[],"uiFrameworks":[],"aiApiConcepts":[]}`. -/
theorem C9_success_witness :
    handler (some "key") evHi (.response 200 (.enc (.obj ufsEx))) =
      ⟨200, [("Content-Type", "application/json")],
        .enc (.obj [("research", rdEmpty), ("sources", .arr [])])⟩ :=
  C9_success (some "key") evHi bodyHi dfsHi ufsEx cfsEx contfsEx pfsEx [] []
    (.enc rdEmpty) rdEmpty 200 rfl rfl rfl rfl (by decide) (by decide)
    rfl rfl rfl rfl rfl rfl rfl

/-- C10: when the upstream 2xx body is valid JSON with no `candidates` key
at all, the default `[{}]` supplies a falsy first candidate `{}`, so the
handler returns statusCode 500 with the empty-candidate-list message. -/
theorem C10_missing_candidates_key (k : Option String) (e : Event) (b : JStr)
    (dfs ufs : List (String × Json)) (s : Nat)
    (hk : truthyKey k = true) (hb : e.body = some b) (htb : truthyS b = true)
    (hl : loads b = some (.obj dfs))
    (hs : 200 ≤ s) (hs' : s < 300)
    (hcand : jlookup ufs "candidates" = none) :
    handler k e (.response s (.enc (.obj ufs))) =
      mkErr 500 "Gemini API returned an empty candidate list." := by
  obtain rfl := loads_eq_some hl
  have h400 : ¬ (400 ≤ s) := by omega
  simp [handler, hk, handlerTry, hb, pyGetOpt, pyGetD, pyIndex0, loads, truthyS, h400,
    hcand, truthyJ, applyExcepts]

/-- Witness for C10 at a concrete candidates-free upstream body. -/
theorem C10_missing_candidates_key_witness :
    handler (some "key") ⟨some (.enc (.obj [("prompt", .str (.raw "hi"))]))⟩
      (.response 200 (.enc (.obj [("modelVersion", .str (.raw "x"))]))) =
      mkErr 500 "Gemini API returned an empty candidate list." :=
  C10_missing_candidates_key (some "key")
    ⟨some (.enc (.obj [("prompt", .str (.raw "hi"))]))⟩
    (.enc (.obj [("prompt", .str (.raw "hi"))])) [("prompt", .str (.raw "hi"))]
    [("modelVersion", .str (.raw "x"))] 200 rfl rfl rfl rfl (by decide) (by decide) rfl

/-- C8 is false as stated: with the upstream candidate carrying two
grounding attributions whose nested `web.uri` keys are both present —
`attrGood` with uri `"https://a.example"` and `attrEmptyUri` with uri `""` —
the returned `sources` list contains only one entry, not both: the code
keeps entries by Python truthiness of `web.get('uri')`, so a present but
empty uri is dropped. -/
theorem C8_counterexample :
    sourcesOf (handler (some "key") evHi (.response 200 (.enc (.obj ufsGm)))) =
      some (.arr [.obj [("uri", .str (.raw "https://a.example")),
        ("title", .str (.raw "T"))]]) ∧
    sourcesCount (handler (some "key") evHi (.response 200 (.enc (.obj ufsGm)))) = 1 ∧
    ¬ sourcesCount (handler (some "key") evHi (.response 200 (.enc (.obj ufsGm)))) = 2 := by
  exact ⟨rfl, rfl, by decide⟩

/-- C8 amended: over attribution shapes on which the loop cannot raise
(dicts whose truthy `web` is a dict), the returned `sources` list contains
exactly the attributions whose nested `web.uri` is present *and truthy*
(Python-truthy: a present empty-string uri is dropped), in attribution
order; each kept entry's title defaults to the fixed placeholder when
absent; an absent `groundingMetadata` key, or one whose object lacks
`groundingAttributions`, yields an empty sources list rather than an error.
The right-hand side `specSources` is the order-preserving filter written
from these (amended) spec words. -/
theorem C8_amended_thm (k : Option String) (e : Event) (b : JStr)
    (dfs ufs cfs contfs pfs : List (String × Json)) (cs ps : List Json)
    (t : JStr) (rj : Json) (s : Nat) (attrs : List Json)
    (hk : truthyKey k = true) (hb : e.body = some b) (htb : truthyS b = true)
    (hl : loads b = some (.obj dfs))
    (hs : 200 ≤ s) (hs' : s < 300)
    (hcand : jlookup ufs "candidates" = some (.arr (Json.obj cfs :: cs)))
    (hcont : jlookup cfs "content" = some (.obj contfs))
    (hparts : jlookup contfs "parts" = some (.arr (Json.obj pfs :: ps)))
    (htext : jlookup pfs "text" = some (.str t))
    (htt : truthyS t = true) (hrt : loads t = some rj)
    (hgm : (jlookup cfs "groundingMetadata" = none ∧ attrs = []) ∨
           (∃ gfs, jlookup cfs "groundingMetadata" = some (.obj gfs) ∧
              jlookup gfs "groundingAttributions" = none ∧ attrs = []) ∨
           (∃ gfs, jlookup cfs "groundingMetadata" = some (.obj gfs) ∧
              jlookup gfs "groundingAttributions" = some (.arr attrs)))
    (hben : attrs.all attrBenign = true) :
    handler k e (.response s (.enc (.obj ufs))) =
      ⟨200, [("Content-Type", "application/json")],
        .enc (.obj [("research", rj), ("sources", .arr (specSources attrs))])⟩ := by
  obtain rfl := loads_eq_some hl
  obtain rfl := loads_eq_some hrt
  have h400 : ¬ (400 ≤ s) := by omega
  have hcne : cfs.isEmpty = false := jlookup_isEmpty_false cfs "content" _ hcont
  rcases hgm with ⟨hg, rfl⟩ | ⟨gfs, hg, hga, rfl⟩ | ⟨gfs, hg, hga⟩
  · simp [handler, hk, handlerTry, hb, pyGetOpt, pyGetD, pyIndex0, loads, truthyS, h400,
      hcand, hcont, hparts, htext, hg, truthyJ, hcne, truthyOpt,
      pyLoadsValue, sourcesCalc, applyExcepts, specSources]
  · have hsc := sourcesCalc_no_attrs gfs hga
    simp [handler, hk, handlerTry, hb, pyGetOpt, pyGetD, pyIndex0, loads, truthyS, h400,
      hcand, hcont, hparts, htext, hg, truthyJ, hcne, truthyOpt,
      pyLoadsValue, hsc, applyExcepts, specSources]
  · have hsc := sourcesCalc_spec gfs attrs hga hben
    simp [handler, hk, handlerTry, hb, pyGetOpt, pyGetD, pyIndex0, loads, truthyS, h400,
      hcand, hcont, hparts, htext, hg, truthyJ, hcne, truthyOpt,
      pyLoadsValue, hsc, applyExcepts]

/-- Witness for the amended C8 at the concrete two-attribution input:
the kept entry is the one whose uri is truthy, with its title preserved. -/
theorem C8_amended_witness :
    handler (some "key") evHi (.response 200 (.enc (.obj ufsGm))) =
      ⟨200, [("Content-Type", "application/json")],
        .enc (.obj [("research", rdEmpty),
          ("sources", .arr (specSources [attrGood, attrEmptyUri]))])⟩ :=
  C8_amended_thm (some "key") evHi bodyHi dfsHi ufsGm cfsGm contfsEx pfsEx [] []
    (.enc rdEmpty) rdEmpty 200 [attrGood, attrEmptyUri]
    rfl rfl rfl rfl (by decide) (by decide) rfl rfl rfl rfl rfl rfl
    (Or.inr (Or.inr ⟨[("groundingAttributions", .arr [attrGood, attrEmptyUri])],
      rfl, rfl⟩))
    (by decide)

/-- C4: for every input event and every upstream behaviour — any response
body, any HTTP status, a raised timeout or any other transport exception —
the handler returns a well-formed `{statusCode, body}` value whose
statusCode is one of 200, 400, 500, 504 and whose body is a valid JSON
string (`json.loads` succeeds on it); every exception is absorbed by an
except clause, so nothing escapes the handler boundary (the handler is a
total function in this model). -/
theorem C4_wellformed (k : Option String) (e : Event) (u : UpstreamResult) :
    ((handler k e u).statusCode = 200 ∨ (handler k e u).statusCode = 400 ∨
     (handler k e u).statusCode = 500 ∨ (handler k e u).statusCode = 504) ∧
    (loads (handler k e u).body).isSome = true := by
  unfold handler
  split
  · cases hh : handlerTry e u with
    | ok r =>
      obtain ⟨hs, j, hbj⟩ := handlerTry_ok_cases e u r hh
      constructor
      · simp only [applyExcepts]
        tauto
      · simp [applyExcepts, hbj, loads]
    | error ex =>
      cases ex <;> simp [applyExcepts, mkErr, mkErrDetails, loads]
  · simp [mkErr, loads]

end ResearchPy
